import Mathlib

/-!
Shallow embedding of `smart_home_system.py`: device variants (Light,
Thermostat, DoorLock), the observer notification channel, the access-control
proxy, and the SmartHomeHub registry/scheduler.

Modelling conventions:
* Python's insertion-ordered `dict` is an association list `List (Nat × α)`;
  assignment replaces in place when the key is present, else appends.
* Observers are identified by `Nat`; delivering a notification is recorded as
  a `(observer, message)` pair in the order `notify_observers` visits the
  subscriber list.  A mutator returns the notifications it delivered, which
  models synchronous in-line delivery before the mutator returns.
* `print` output is returned as `String` values inside result types.
* A Python exception that a method raises (and that the source does not
  catch) is modelled by a dedicated error constructor / `Except.error`.
-/

set_option autoImplicit false

namespace SmartHome

/-- Python dict membership `k in d` for the association-list model. -/
def dictContains {α : Type} : List (Nat × α) → Nat → Bool
  | [], _ => false
  | p :: d, k => p.1 == k || dictContains d k

/-- Python dict lookup `d[k]`, `none` when the key is absent (KeyError). -/
def dictGet {α : Type} : List (Nat × α) → Nat → Option α
  | [], _ => none
  | p :: d, k => if p.1 == k then some p.2 else dictGet d k

/-- Python dict assignment `d[k] = v`: replace in place when present
(insertion order kept), else append at the end. -/
def dictSet {α : Type} : List (Nat × α) → Nat → α → List (Nat × α)
  | [], k, v => [(k, v)]
  | p :: d, k, v => if p.1 == k then (k, v) :: d else p :: dictSet d k v

/-- Python `del d[k]`; keys are unique in a dict, so removing every match
removes exactly the one entry. -/
def dictDel {α : Type} : List (Nat × α) → Nat → List (Nat × α)
  | [], _ => []
  | p :: d, k => if p.1 == k then dictDel d k else p :: dictDel d k

/-- Python `" ".join(parts)` (general separator). -/
def strJoin (sep : String) : List String → String
  | [] => ""
  | [x] => x
  | x :: xs => x ++ sep ++ strJoin sep xs

/-- `Device.notify_observers`: deliver `message` to every observer in list
order; the result is the delivered `(observer, message)` sequence. -/
def notifyObservers (observers : List Nat) (message : String) : List (Nat × String) :=
  observers.map (fun o => (o, message))

/-- Concrete class `Light` (fields set by `Light.__init__` and the base
`Device.__init__`): id, `status`, and the observer list. -/
structure Light where
  device_id : Nat
  status : String
  observers : List Nat
deriving DecidableEq

/-- `Light.__init__(device_id)`: status starts `"off"`; there is no
initial-status parameter. -/
def Light.init (device_id : Nat) : Light :=
  { device_id := device_id, status := "off", observers := [] }

/-- `Light.turn_on`: set status to `"on"`, then notify. -/
def Light.turn_on (l : Light) : Light × List (Nat × String) :=
  let l' := { l with status := "on" }
  (l', notifyObservers l'.observers ("Light is turned on (" ++ l'.status ++ ")"))

/-- `Light.turn_off`: set status to `"off"`, then notify. -/
def Light.turn_off (l : Light) : Light × List (Nat × String) :=
  let l' := { l with status := "off" }
  (l', notifyObservers l'.observers ("Light is turned off (" ++ l'.status ++ ")"))

/-- `Light.status_report`. -/
def Light.status_report (l : Light) : String :=
  "Light " ++ toString l.device_id ++ " is " ++ l.status ++ "."

/-- Concrete class `Thermostat`. -/
structure Thermostat where
  device_id : Nat
  temperature : Int
  observers : List Nat
deriving DecidableEq

/-- `Thermostat.__init__(device_id)`: temperature starts at 70. -/
def Thermostat.init (device_id : Nat) : Thermostat :=
  { device_id := device_id, temperature := 70, observers := [] }

/-- `Thermostat.set_temperature`: set the temperature, then notify. -/
def Thermostat.set_temperature (t : Thermostat) (temperature : Int) :
    Thermostat × List (Nat × String) :=
  let t' := { t with temperature := temperature }
  (t', notifyObservers t'.observers
    ("Thermostat temperature set to " ++ toString t'.temperature ++ " degrees"))

/-- `Thermostat.status_report`. -/
def Thermostat.status_report (t : Thermostat) : String :=
  "Thermostat is set to " ++ toString t.temperature ++ " degrees."

/-- Concrete class `DoorLock`. -/
structure DoorLock where
  device_id : Nat
  status : String
  observers : List Nat
deriving DecidableEq

/-- `DoorLock.__init__(device_id)`: status starts `"locked"`. -/
def DoorLock.init (device_id : Nat) : DoorLock :=
  { device_id := device_id, status := "locked", observers := [] }

/-- `DoorLock.lock`. -/
def DoorLock.lock (d : DoorLock) : DoorLock × List (Nat × String) :=
  let d' := { d with status := "locked" }
  (d', notifyObservers d'.observers "Door is locked")

/-- `DoorLock.unlock`. -/
def DoorLock.unlock (d : DoorLock) : DoorLock × List (Nat × String) :=
  let d' := { d with status := "unlocked" }
  (d', notifyObservers d'.observers "Door is unlocked")

/-- `DoorLock.status_report`. -/
def DoorLock.status_report (d : DoorLock) : String :=
  "Door is " ++ d.status ++ "."

/-- A `Device` is one of the three concrete subclasses. -/
inductive Device
  | light (l : Light)
  | thermostat (t : Thermostat)
  | door (d : DoorLock)
deriving DecidableEq

/-- `self.device_type`, as set by each subclass's `__init__`. -/
def Device.device_type : Device → String
  | .light _ => "light"
  | .thermostat _ => "thermostat"
  | .door _ => "door"

/-- The base-class `observers` field. -/
def Device.observers : Device → List Nat
  | .light l => l.observers
  | .thermostat t => t.observers
  | .door d => d.observers

/-- Replace the `observers` field (helper for the base-class methods). -/
def Device.setObservers : Device → List Nat → Device
  | .light l, os => .light { l with observers := os }
  | .thermostat t, os => .thermostat { t with observers := os }
  | .door d, os => .door { d with observers := os }

/-- `Device.add_observer`: `self.observers.append(observer)`. -/
def Device.add_observer (d : Device) (observer : Nat) : Device :=
  d.setObservers (d.observers ++ [observer])

/-- Python `list.remove(x)`: drop the first occurrence. -/
def removeFirst : List Nat → Nat → List Nat
  | [], _ => []
  | x :: xs, o => if x == o then xs else x :: removeFirst xs o

/-- `Device.remove_observer`: `self.observers.remove(observer)`.  When the
observer is absent, Python's `list.remove` raises `ValueError` and the source
does not catch it, so the exception propagates to the caller; this is the
`.error` case (the observer list is not mutated before the raise). -/
def Device.remove_observer (d : Device) (observer : Nat) : Except String Device :=
  if d.observers.contains observer then
    .ok (d.setObservers (removeFirst d.observers observer))
  else
    .error "ValueError: list.remove(x): x not in list"

/-- Dynamic dispatch of `turn_on`: only `Light` defines it; calling it on any
other device raises `AttributeError`, modelled as `none`. -/
def Device.turn_on : Device → Option (Device × List (Nat × String))
  | .light l => some (.light (l.turn_on).1, (l.turn_on).2)
  | _ => none

/-- Dynamic dispatch of `turn_off` (Light only, as `turn_on`). -/
def Device.turn_off : Device → Option (Device × List (Nat × String))
  | .light l => some (.light (l.turn_off).1, (l.turn_off).2)
  | _ => none

/-- Virtual `status_report` (every subclass overrides the base `pass`). -/
def Device.status_report : Device → String
  | .light l => l.status_report
  | .thermostat t => t.status_report
  | .door d => d.status_report

/-- `DeviceProxy`: wraps one device reference. -/
structure DeviceProxy where
  device : Device
deriving DecidableEq

/-- `DeviceProxy.turn_on`: forwards unconditionally (AttributeError — `none`
— when the wrapped device has no `turn_on`). -/
def DeviceProxy.turn_on (p : DeviceProxy) : Option (DeviceProxy × List (Nat × String)) :=
  (p.device.turn_on).map (fun r => ({ device := r.1 }, r.2))

/-- `DeviceProxy.turn_off`: forwards unconditionally. -/
def DeviceProxy.turn_off (p : DeviceProxy) : Option (DeviceProxy × List (Nat × String)) :=
  (p.device.turn_off).map (fun r => ({ device := r.1 }, r.2))

/-- `DeviceProxy.set_temperature`: forwards only when the wrapped device is a
`Thermostat` (`isinstance` check); otherwise prints the unsupported-capability
message and performs no mutation.  Result: (proxy, notifications, printed). -/
def DeviceProxy.set_temperature (p : DeviceProxy) (temperature : Int) :
    DeviceProxy × List (Nat × String) × List String :=
  match p.device with
  | .thermostat t =>
    let r := t.set_temperature temperature
    ({ device := .thermostat r.1 }, r.2, [])
  | _ => (p, [], ["This device does not support temperature control."])

/-- `DeviceProxy.lock`: forwards only for `DoorLock`. -/
def DeviceProxy.lock (p : DeviceProxy) : DeviceProxy × List (Nat × String) × List String :=
  match p.device with
  | .door d =>
    let r := d.lock
    ({ device := .door r.1 }, r.2, [])
  | _ => (p, [], ["This device does not support locking."])

/-- `DeviceProxy.unlock`: forwards only for `DoorLock`. -/
def DeviceProxy.unlock (p : DeviceProxy) : DeviceProxy × List (Nat × String) × List String :=
  match p.device with
  | .door d =>
    let r := d.unlock
    ({ device := .door r.1 }, r.2, [])
  | _ => (p, [], ["This device does not support unlocking."])

/-- `DeviceProxy.status_report`: always forwards. -/
def DeviceProxy.status_report (p : DeviceProxy) : String :=
  p.device.status_report

/-- A value stored in `self.devices`: `create_device` stores the `Device`
object itself, while `add_device` afterwards overwrites the entry with the
`DeviceProxy` that `create_device` returned. -/
inductive StoredEntry
  | dev (d : Device)
  | proxy (p : DeviceProxy)
deriving DecidableEq

/-- `status_report` on whatever object the dict holds (both the `Device` and
the proxy expose it). -/
def StoredEntry.status_report : StoredEntry → String
  | .dev d => d.status_report
  | .proxy p => p.status_report

/-- `turn_on` on whatever object the dict holds; `none` is an uncaught
`AttributeError` for a non-Light underlying device. -/
def StoredEntry.turn_on : StoredEntry → Option (StoredEntry × List (Nat × String))
  | .dev d => (d.turn_on).map (fun r => (.dev r.1, r.2))
  | .proxy p => (p.turn_on).map (fun r => (.proxy r.1, r.2))

/-- `turn_off` on whatever object the dict holds. -/
def StoredEntry.turn_off : StoredEntry → Option (StoredEntry × List (Nat × String))
  | .dev d => (d.turn_off).map (fun r => (.dev r.1, r.2))
  | .proxy p => (p.turn_off).map (fun r => (.proxy r.1, r.2))

/-- A `{"device": ..., "time": ..., "action": ...}` entry of
`self.scheduled_tasks`. -/
structure ScheduledTask where
  device : Nat
  time : String
  action : String
deriving DecidableEq

/-- A `{"condition": ..., "action": ...}` entry of `self.automated_triggers`. -/
structure AutomatedTrigger where
  condition : String
  action : String
deriving DecidableEq

/-- `SmartHomeHub` state: the device dict and the two task/trigger lists. -/
structure SmartHomeHub where
  devices : List (Nat × StoredEntry)
  scheduled_tasks : List ScheduledTask
  automated_triggers : List AutomatedTrigger
deriving DecidableEq

/-- `SmartHomeHub.__init__`. -/
def SmartHomeHub.init : SmartHomeHub :=
  { devices := [], scheduled_tasks := [], automated_triggers := [] }

/-- Outcome of `create_device`: the duplicate-id report with a `None` return,
a returned proxy (with any creation-time notifications), or the
`ValueError("Invalid device type")` raise. -/
inductive CreateResult
  | duplicate (printed : String)
  | created (p : DeviceProxy) (notifications : List (Nat × String))
  | invalidType
deriving DecidableEq

/-- `SmartHomeHub.create_device`: reject an existing id; build the variant
for `"light"` / `"thermostat"` / `"door"` (applying the optional initial
state through the variant's own mutator); raise on any other kind; store the
`Device` in `self.devices` and return a `DeviceProxy` wrapping it.  Note the
light branch ignores both optional initial arguments. -/
def SmartHomeHub.create_device (hub : SmartHomeHub) (device_id : Nat)
    (device_type : String) (initial_status : Option String)
    (initial_temperature : Option Int) : SmartHomeHub × CreateResult :=
  if dictContains hub.devices device_id then
    (hub, .duplicate ("Device with ID " ++ toString device_id ++ " already exists."))
  else if device_type == "light" then
    let device := Device.light (Light.init device_id)
    ({ hub with devices := dictSet hub.devices device_id (.dev device) },
     .created { device := device } [])
  else if device_type == "thermostat" then
    let t0 := Thermostat.init device_id
    let r := match initial_temperature with
      | some temp => t0.set_temperature temp
      | none => (t0, [])
    let device := Device.thermostat r.1
    ({ hub with devices := dictSet hub.devices device_id (.dev device) },
     .created { device := device } r.2)
  else if device_type == "door" then
    let d0 := DoorLock.init device_id
    let r := match initial_status with
      | some s =>
        if s == "locked" then d0.lock
        else if s == "unlocked" then d0.unlock
        else (d0, [])
      | none => (d0, [])
    let device := Device.door r.1
    ({ hub with devices := dictSet hub.devices device_id (.dev device) },
     .created { device := device } r.2)
  else
    (hub, .invalidType)

/-- Outcome of `add_device`. -/
inductive AddResult
  | duplicate (printed : String)
  | added (printed : String) (notifications : List (Nat × String))
  | invalidTypeError
deriving DecidableEq

/-- `SmartHomeHub.add_device`: reject an existing id, else delegate to
`create_device` and then rebind `self.devices[device_id]` to whatever
`create_device` returned — the `DeviceProxy`, overwriting the `Device`
object that `create_device` itself stored. -/
def SmartHomeHub.add_device (hub : SmartHomeHub) (device_id : Nat)
    (device_type : String) (initial_status : Option String)
    (initial_temperature : Option Int) : SmartHomeHub × AddResult :=
  if dictContains hub.devices device_id then
    (hub, .duplicate ("Device with ID " ++ toString device_id ++ " already exists."))
  else
    match hub.create_device device_id device_type initial_status initial_temperature with
    | (hub', .created p notifs) =>
      ({ hub' with devices := dictSet hub'.devices device_id (.proxy p) },
       .added ("Added new " ++ device_type ++ " with ID " ++ toString device_id ++ ".") notifs)
    | (hub', .duplicate m) => (hub', .duplicate m)
      -- unreachable: the branch above already checked `device_id in self.devices`
    | (hub', .invalidType) => (hub', .invalidTypeError)

/-- Outcome of the hub's direct routing methods `turn_on(id)` / `turn_off(id)`. -/
inductive CommandResult
  | ok (notifications : List (Nat × String))
  | notFound (printed : String)
  | attrError
deriving DecidableEq

/-- `SmartHomeHub.turn_on(device_id)`: `device_id in self.devices` is
modelled by `dictGet` being `some`; the entry's `turn_on` is invoked
directly (an `AttributeError` on a non-Light propagates, `.attrError`). -/
def SmartHomeHub.turn_on (hub : SmartHomeHub) (device_id : Nat) :
    SmartHomeHub × CommandResult :=
  match dictGet hub.devices device_id with
  | some e =>
    match e.turn_on with
    | some r => ({ hub with devices := dictSet hub.devices device_id r.1 }, .ok r.2)
    | none => (hub, .attrError)
  | none => (hub, .notFound ("Device with ID " ++ toString device_id ++ " not found."))

/-- `SmartHomeHub.turn_off(device_id)`. -/
def SmartHomeHub.turn_off (hub : SmartHomeHub) (device_id : Nat) :
    SmartHomeHub × CommandResult :=
  match dictGet hub.devices device_id with
  | some e =>
    match e.turn_off with
    | some r => ({ hub with devices := dictSet hub.devices device_id r.1 }, .ok r.2)
    | none => (hub, .attrError)
  | none => (hub, .notFound ("Device with ID " ++ toString device_id ++ " not found."))

/-- `SmartHomeHub.set_schedule`: append and print. -/
def SmartHomeHub.set_schedule (hub : SmartHomeHub) (device_id : Nat)
    (time : String) (action : String) : SmartHomeHub × String :=
  ({ hub with scheduled_tasks :=
      hub.scheduled_tasks ++ [{ device := device_id, time := time, action := action }] },
   "Scheduled Task: [" ++ time ++ "] - " ++ action)

/-- `SmartHomeHub.add_trigger`: append and print. -/
def SmartHomeHub.add_trigger (hub : SmartHomeHub) (condition : String)
    (action : String) : SmartHomeHub × String :=
  ({ hub with automated_triggers :=
      hub.automated_triggers ++ [{ condition := condition, action := action }] },
   "Automated Trigger: [" ++ condition ++ "] - " ++ action)

/-- Outcome of `remove_device`. -/
inductive RemoveResult
  | removed (printed : String)
  | notFound (printed : String)
  | attrError
deriving DecidableEq

/-- `SmartHomeHub.remove_device`: look the entry up, `del` it, then print
`"Removed {device.device_type} ..."`.  When `add_device` stored a
`DeviceProxy`, the attribute read `device.device_type` raises an uncaught
`AttributeError` (`.attrError`) — after the deletion already happened. -/
def SmartHomeHub.remove_device (hub : SmartHomeHub) (device_id : Nat) :
    SmartHomeHub × RemoveResult :=
  match dictGet hub.devices device_id with
  | some entry =>
    let hub' := { hub with devices := dictDel hub.devices device_id }
    match entry with
    | .dev d =>
      (hub', .removed ("Removed " ++ d.device_type ++ " with ID " ++ toString device_id ++ "."))
    | .proxy _ => (hub', .attrError)
  | none => (hub, .notFound ("Device with ID " ++ toString device_id ++ " not found."))

/-- `SmartHomeHub.status_report`: every stored entry's `status_report` in
dict (insertion) order, joined by `" "`. -/
def SmartHomeHub.status_report (hub : SmartHomeHub) : String :=
  strJoin " " (hub.devices.map (fun p => p.2.status_report))

/-- `SmartHomeHub.get_scheduled_tasks` (value-level view; the aliasing
behaviour of returning the stored list object itself is modelled separately
below with an explicit reference heap). -/
def SmartHomeHub.get_scheduled_tasks (hub : SmartHomeHub) : List ScheduledTask :=
  hub.scheduled_tasks

/-- `SmartHomeHub.get_automated_triggers` (value-level view, as above). -/
def SmartHomeHub.get_automated_triggers (hub : SmartHomeHub) : List AutomatedTrigger :=
  hub.automated_triggers

/-- Modelled from the source's `eval`-based dispatch: `execute_command` runs
`eval(f"self.{command}")`.  The embedding restricts the resolvable command
strings to the `turn_on(<nat>)` / `turn_off(<nat>)` forms the repository
uses; every other string fails to resolve inside `eval` and raises, which
the `except` clause catches. -/
inductive ParsedCommand
  | turnOnCmd (device_id : Nat)
  | turnOffCmd (device_id : Nat)
deriving DecidableEq

/-- Digit-string value, accumulator style (at least one digit required by
`parseDigits`). -/
def parseDigitsAux : List Char → Nat → Option Nat
  | [], acc => some acc
  | c :: cs, acc =>
    if c.isDigit then parseDigitsAux cs (acc * 10 + (c.toNat - 48)) else none

/-- A non-empty all-digit character list as a `Nat`. -/
def parseDigits : List Char → Option Nat
  | [] => none
  | c :: cs => parseDigitsAux (c :: cs) 0

/-- Parse `head ++ digits ++ ")"` into the numeric argument. -/
def parseNatArg (command : String) (head : String) : Option Nat :=
  if head.data.isPrefixOf command.data then
    let rest := command.data.drop head.data.length
    if rest.getLast? = some ')' then parseDigits rest.dropLast else none
  else none

/-- Resolve a scheduled-action string to a hub method call (see
`ParsedCommand` for the modelling note). -/
def parseCommand (command : String) : Option ParsedCommand :=
  match parseNatArg command "turn_on(" with
  | some n => some (.turnOnCmd n)
  | none =>
    match parseNatArg command "turn_off(" with
    | some n => some (.turnOffCmd n)
    | none => none

/-- `SmartHomeHub.execute_command`: `try: eval(f"self.{command}") except
Exception as e: print(...)`.  Every exception — an unresolvable command, or
an `AttributeError` escaping the invoked method — is caught and printed; the
hub state reached before the exception is kept.  Result: (hub, printed). -/
def SmartHomeHub.execute_command (hub : SmartHomeHub) (command : String) :
    SmartHomeHub × List String :=
  match parseCommand command with
  | some (.turnOnCmd n) =>
    let r := hub.turn_on n
    match r.2 with
    | .ok _ => (r.1, [])
    | .notFound m => (r.1, [m])
    | .attrError => (r.1, ["Error executing command: " ++ command])
  | some (.turnOffCmd n) =>
    let r := hub.turn_off n
    match r.2 with
    | .ok _ => (r.1, [])
    | .notFound m => (r.1, [m])
    | .attrError => (r.1, ["Error executing command: " ++ command])
  | none => (hub, ["Error executing command: " ++ command])

/-- The inner loop of `run_scheduled_tasks` over a task list: each task whose
`time` equals the current time has its action dispatched via
`execute_command`; others are skipped.  Result: (hub, printed lines). -/
def runTasks (hub : SmartHomeHub) (current_time : String) :
    List ScheduledTask → SmartHomeHub × List String
  | [] => (hub, [])
  | t :: rest =>
    if t.time == current_time then
      let r := hub.execute_command t.action
      let rr := runTasks r.1 current_time rest
      (rr.1, r.2 ++ rr.2)
    else runTasks hub current_time rest

/-- One tick of `SmartHomeHub.run_scheduled_tasks`: the unbounded
`while True: ... sleep(60)` loop is modelled one iteration at a time, with
`current_time` abstracting `datetime.now().strftime("%H:%M")`. -/
def SmartHomeHub.run_tick (hub : SmartHomeHub) (current_time : String) :
    SmartHomeHub × List String :=
  runTasks hub current_time hub.scheduled_tasks

/-- Reference heap for the aliasing behaviour of the read accessors: Python
returns `self.scheduled_tasks` (the list object itself), so object identity
is modelled by a cell index into a heap of lists. -/
def Heap (α : Type) : Type := Nat → List α

/-- Dereference a cell. -/
def heapRead {α : Type} (h : Heap α) (r : Nat) : List α := h r

/-- In-place `list.append` through a reference — what a caller can do with
the object `get_scheduled_tasks()` hands back. -/
def heapAppendAt {α : Type} (h : Heap α) (r : Nat) (a : α) : Heap α :=
  fun x => if x = r then heapRead h r ++ [a] else h x

/-- The hub's two list-valued attributes, as references into the heaps. -/
structure HubRefs where
  scheduled_tasks : Nat
  automated_triggers : Nat
deriving DecidableEq

/-- `get_scheduled_tasks` under reference semantics: `return
self.scheduled_tasks` hands back the stored reference itself, not a copy. -/
def HubRefs.get_scheduled_tasks (hub : HubRefs) : Nat := hub.scheduled_tasks

/-- `get_automated_triggers` under reference semantics. -/
def HubRefs.get_automated_triggers (hub : HubRefs) : Nat := hub.automated_triggers

/-- The registry's stored scheduled-task sequence, read through its own
reference. -/
def storedScheduledTasks (h : Heap ScheduledTask) (hub : HubRefs) : List ScheduledTask :=
  heapRead h hub.scheduled_tasks

/-- The registry's stored trigger sequence, read through its own reference. -/
def storedAutomatedTriggers (h : Heap AutomatedTrigger) (hub : HubRefs) : List AutomatedTrigger :=
  heapRead h hub.automated_triggers

/-- The hub of the §8 scenario: register Light(1, off), Thermostat(2, 70),
DoorLock(3, locked) through `add_device` in that order, then `turn_on(1)`. -/
def scenarioHub : SmartHomeHub :=
  ((((SmartHomeHub.init.add_device 1 "light" (some "off") none).1.add_device
      2 "thermostat" none (some 70)).1.add_device
      3 "door" (some "locked") none).1.turn_on 1).1

/-! ### Association-list (dict) lemmas -/

theorem dictGet_dictSet_self {α : Type} (d : List (Nat × α)) (k : Nat) (v : α) :
    dictGet (dictSet d k v) k = some v := by
  induction d with
  | nil => simp [dictGet, dictSet]
  | cons p d ih =>
    by_cases h : p.1 == k
    · simp [dictGet, dictSet, h]
    · simp [dictGet, dictSet, h, ih]

theorem dictGet_of_contains_false {α : Type} (d : List (Nat × α)) (k : Nat)
    (h : dictContains d k = false) : dictGet d k = none := by
  induction d with
  | nil => rfl
  | cons p d ih =>
    simp [dictContains] at h
    simp [dictGet, h.1, ih h.2]

theorem dictGet_append_fresh {α : Type} (pre post : List (Nat × α)) (k : Nat) (e : α)
    (hpre : ∀ q ∈ pre, q.1 ≠ k) :
    dictGet (pre ++ (k, e) :: post) k = some e := by
  induction pre with
  | nil => simp [dictGet]
  | cons p pre ih =>
    have hp : (p.1 == k) = false := by
      simp only [beq_eq_false_iff_ne]
      exact hpre p (List.mem_cons_self p pre)
    simp only [List.cons_append, dictGet, hp]
    exact ih (fun q hq => hpre q (List.mem_cons_of_mem p hq))

theorem dictDel_of_fresh {α : Type} (l : List (Nat × α)) (k : Nat)
    (h : ∀ q ∈ l, q.1 ≠ k) : dictDel l k = l := by
  induction l with
  | nil => rfl
  | cons p l ih =>
    have hp : (p.1 == k) = false := by
      simp only [beq_eq_false_iff_ne]
      exact h p (List.mem_cons_self p l)
    simp only [dictDel, hp]
    simp [ih (fun q hq => h q (List.mem_cons_of_mem p hq))]

theorem dictDel_append_middle {α : Type} (pre post : List (Nat × α)) (k : Nat) (e : α)
    (hpre : ∀ q ∈ pre, q.1 ≠ k) (hpost : ∀ q ∈ post, q.1 ≠ k) :
    dictDel (pre ++ (k, e) :: post) k = pre ++ post := by
  induction pre with
  | nil => simp [dictDel, dictDel_of_fresh post k hpost]
  | cons p pre ih =>
    have hp : (p.1 == k) = false := by
      simp only [beq_eq_false_iff_ne]
      exact hpre p (List.mem_cons_self p pre)
    simp only [List.cons_append, dictDel, hp]
    simp [ih (fun q hq => hpre q (List.mem_cons_of_mem p hq))]

/-! ### Further helper lemmas -/

/-- With a fresh id and a recognised kind, `create_device` returns a
`.created` result. -/
theorem create_device_creates (hub : SmartHomeHub) (id : Nat) (dt : String)
    (st : Option String) (tp : Option Int)
    (hfresh : dictContains hub.devices id = false)
    (hdt : dt = "light" ∨ dt = "thermostat" ∨ dt = "door") :
    ∃ (hub' : SmartHomeHub) (p : DeviceProxy) (notifs : List (Nat × String)),
      hub.create_device id dt st tp = (hub', .created p notifs) := by
  rcases hdt with h | h | h <;> subst h <;>
    simp [SmartHomeHub.create_device, hfresh]

/-- Filtering a constant-message notification batch by receiver. -/
theorem filter_fst_map (xs : List Nat) (m : String) (o : Nat) :
    (xs.map (fun x => (x, m))).filter (fun q => q.1 == o) =
      (xs.filter (fun x => x == o)).map (fun x => (x, m)) := by
  induction xs with
  | nil => rfl
  | cons x xs ih =>
    by_cases h : (x == o) = true <;>
      simp only [List.map_cons, List.filter_cons, h, ih] <;> simp [h]

/-- In a duplicate-free list the entries equal to a member reduce to that
single member. -/
theorem nodup_filter_beq (xs : List Nat) (o : Nat) (hn : xs.Nodup) (ho : o ∈ xs) :
    xs.filter (fun x => x == o) = [o] := by
  induction xs with
  | nil => cases ho
  | cons x xs ih =>
    rcases List.nodup_cons.mp hn with ⟨hx, hn'⟩
    rcases List.mem_cons.mp ho with h | h
    · subst h
      have : xs.filter (fun y => y == o) = [] :=
        List.filter_eq_nil_iff.mpr (fun a ha => by
          simp only [beq_iff_eq]
          intro e
          exact hx (e ▸ ha))
      simp [List.filter_cons, this]
    · have hxo : (x == o) = false := by
        simp only [beq_eq_false_iff_ne]
        intro e
        exact hx (e ▸ h)
      simp [List.filter_cons, hxo, ih hn' h]

/-- `runTasks` steps through a due task by dispatching it. -/
theorem runTasks_cons_due (hub : SmartHomeHub) (time : String) (t : ScheduledTask)
    (rest : List ScheduledTask) (h : (t.time == time) = true) :
    runTasks hub time (t :: rest) =
      ((runTasks (hub.execute_command t.action).1 time rest).1,
       (hub.execute_command t.action).2 ++
         (runTasks (hub.execute_command t.action).1 time rest).2) := by
  simp [runTasks, h]

/-- `runTasks` skips a task that is not due. -/
theorem runTasks_cons_skip (hub : SmartHomeHub) (time : String) (t : ScheduledTask)
    (rest : List ScheduledTask) (h : (t.time == time) = false) :
    runTasks hub time (t :: rest) = runTasks hub time rest := by
  simp [runTasks, h]

/-- Splitting the task loop around one due-but-malformed task: the task
contributes only the caught-error report, its dispatch changes no hub state,
and the tasks after it are still processed. -/
theorem runTasks_split_malformed (time : String) (task : ScheduledTask)
    (hdue : task.time = time) (hbad : parseCommand task.action = none)
    (pre : List ScheduledTask) :
    ∀ (hub : SmartHomeHub) (post : List ScheduledTask),
      runTasks hub time (pre ++ task :: post) =
        ((runTasks (runTasks hub time pre).1 time post).1,
         (runTasks hub time pre).2 ++
           ("Error executing command: " ++ task.action) ::
             (runTasks (runTasks hub time pre).1 time post).2) := by
  induction pre with
  | nil =>
    intro hub post
    simp [runTasks, hdue, SmartHomeHub.execute_command, hbad]
  | cons t rest ih =>
    intro hub post
    cases h : (t.time == time) with
    | false =>
      rw [List.cons_append, runTasks_cons_skip hub time t (rest ++ task :: post) h,
        runTasks_cons_skip hub time t rest h]
      exact ih hub post
    | true =>
      rw [List.cons_append, runTasks_cons_due hub time t (rest ++ task :: post) h,
        runTasks_cons_due hub time t rest h, ih]
      simp

/-! ### Claim theorems -/

/-- Claim C1: after registering Light(1, off), Thermostat(2, 70) and
DoorLock(3, locked) via `add_device` in that order and calling `turn_on(1)`,
`status_report()` is exactly the three per-device reports concatenated in
registration order, space-separated. -/
theorem C1_scenario_status_report :
    scenarioHub.status_report =
      "Light 1 is on. Thermostat is set to 70 degrees. Door is locked." := by
  rfl

/-- Claim C2, counterexample: `create_device(1, "light",
initial_status="on")` ignores the requested initial state — the light branch
never reads `initial_status` — so the immediate `status_report()` says the
light is off, not on.  This falsifies the claim for the valid pair
(Light, on). -/
theorem C2_counterexample_light_on :
    (SmartHomeHub.init.create_device 1 "light" (some "on") none).1.status_report =
      "Light 1 is off." ∧
    ("Light 1 is off." : String) ≠ "Light 1 is on." := by
  exact ⟨rfl, by decide⟩

/-- Claim C2, amended: on a fresh registry, `create_device` followed
immediately by `status_report()` reflects the given initial state exactly
for a Thermostat (any integer temperature) and a DoorLock (locked or
unlocked); for a Light the `initial_status` argument is ignored and the
report always shows the light off. -/
theorem C2_amended_initial_state_report (id : Nat) (t : Int) (s : String) :
    (SmartHomeHub.init.create_device id "thermostat" none (some t)).1.status_report =
      "Thermostat is set to " ++ toString t ++ " degrees." ∧
    (SmartHomeHub.init.create_device id "door" (some "locked") none).1.status_report =
      "Door is locked." ∧
    (SmartHomeHub.init.create_device id "door" (some "unlocked") none).1.status_report =
      "Door is unlocked." ∧
    (SmartHomeHub.init.create_device id "light" (some s) none).1.status_report =
      "Light " ++ toString id ++ " is " ++ "off" ++ "." := by
  refine ⟨rfl, rfl, rfl, rfl⟩

/-- Claim C5: a proxy wrapping a Light rejects `set_temperature`, `lock` and
`unlock`: each reports the unsupported-capability message, returns the proxy
(and hence the Light's `status` field) unchanged, and delivers no
notification. -/
theorem C5_proxy_light_rejects (id : Nat) (st : String) (obs : List Nat) (v : Int) :
    DeviceProxy.set_temperature
        { device := Device.light { device_id := id, status := st, observers := obs } } v =
      ({ device := Device.light { device_id := id, status := st, observers := obs } }, [],
        ["This device does not support temperature control."]) ∧
    DeviceProxy.lock
        { device := Device.light { device_id := id, status := st, observers := obs } } =
      ({ device := Device.light { device_id := id, status := st, observers := obs } }, [],
        ["This device does not support locking."]) ∧
    DeviceProxy.unlock
        { device := Device.light { device_id := id, status := st, observers := obs } } =
      ({ device := Device.light { device_id := id, status := st, observers := obs } }, [],
        ["This device does not support unlocking."]) := by
  refine ⟨rfl, rfl, rfl⟩

/-- Claim C6: with the id already present, both `create_device` and
`add_device` print the duplicate-id message, store nothing, return no proxy,
and leave the whole hub (device map included) unchanged. -/
theorem C6_duplicate_id_rejected (hub : SmartHomeHub) (id : Nat) (dt : String)
    (st : Option String) (tp : Option Int)
    (hdup : dictContains hub.devices id = true) :
    hub.create_device id dt st tp =
      (hub, .duplicate ("Device with ID " ++ toString id ++ " already exists.")) ∧
    hub.add_device id dt st tp =
      (hub, .duplicate ("Device with ID " ++ toString id ++ " already exists.")) := by
  constructor
  · simp [SmartHomeHub.create_device, hdup]
  · simp [SmartHomeHub.add_device, hdup]

/-- Witness for C6 on a concrete registry already holding device 1. -/
theorem C6_duplicate_id_rejected_witness :
    dictContains (SmartHomeHub.init.create_device 1 "light" none none).1.devices 1 = true ∧
    ((SmartHomeHub.init.create_device 1 "light" none none).1.create_device 1 "door" none none =
      ((SmartHomeHub.init.create_device 1 "light" none none).1,
        .duplicate ("Device with ID " ++ toString 1 ++ " already exists.")) ∧
     (SmartHomeHub.init.create_device 1 "light" none none).1.add_device 1 "door" none none =
      ((SmartHomeHub.init.create_device 1 "light" none none).1,
        .duplicate ("Device with ID " ++ toString 1 ++ " already exists."))) :=
  ⟨rfl, C6_duplicate_id_rejected _ 1 "door" none none rfl⟩

/-- Claim C8, counterexample: unsubscribing observer 2 from a light with no
subscribers does not report a non-fatal condition — `list.remove` raises a
`ValueError` that `remove_observer` never catches, so the exception
propagates and aborts the caller (the `.error` case of the embedding). -/
theorem C8_counterexample_unsubscribe_absent :
    Device.remove_observer
        (.light { device_id := 1, status := "off", observers := [] }) 2 =
      .error "ValueError: list.remove(x): x not in list" := by
  rfl

/-- Claim C8, amended: unsubscribing an observer not currently subscribed
raises an uncaught `ValueError` that propagates to (and aborts) the caller;
the subscriber sequence is not mutated before the raise. -/
theorem C8_amended_unsubscribe_raises (d : Device) (o : Nat)
    (h : d.observers.contains o = false) :
    d.remove_observer o = .error "ValueError: list.remove(x): x not in list" := by
  have h' : o ∉ d.observers := by simpa using h
  simp [Device.remove_observer, h']

/-- Witness for the amended C8 at a concrete device and observer. -/
theorem C8_amended_unsubscribe_raises_witness :
    (Device.light { device_id := 1, status := "off", observers := [5] }).observers.contains 2
      = false ∧
    (Device.light { device_id := 1, status := "off", observers := [5] }).remove_observer 2 =
      .error "ValueError: list.remove(x): x not in list" :=
  ⟨rfl, C8_amended_unsubscribe_raises _ 2 rfl⟩

/-- Claim C10, counterexample: `get_scheduled_tasks` /
`get_automated_triggers` return the stored list object itself (`return
self.scheduled_tasks`), not a copy: appending to the returned object changes
the registry's stored sequence from `[]` to a singleton — falsifying the
claim that mutation through the returned reference leaves the stored
sequence unchanged. -/
theorem C10_counterexample_accessor_alias :
    storedScheduledTasks (fun _ => []) { scheduled_tasks := 0, automated_triggers := 1 } = [] ∧
    storedScheduledTasks
        (heapAppendAt (fun _ => [])
          (HubRefs.get_scheduled_tasks { scheduled_tasks := 0, automated_triggers := 1 })
          { device := 1, time := "06:00", action := "turn_on(1)" })
        { scheduled_tasks := 0, automated_triggers := 1 } =
      [{ device := 1, time := "06:00", action := "turn_on(1)" }] ∧
    ([{ device := 1, time := "06:00", action := "turn_on(1)" }] : List ScheduledTask) ≠ [] ∧
    storedAutomatedTriggers (fun _ => []) { scheduled_tasks := 0, automated_triggers := 1 } = [] ∧
    storedAutomatedTriggers
        (heapAppendAt (fun _ => [])
          (HubRefs.get_automated_triggers { scheduled_tasks := 0, automated_triggers := 1 })
          { condition := "device.temperature > 75", action := "turn_off(1)" })
        { scheduled_tasks := 0, automated_triggers := 1 } =
      [{ condition := "device.temperature > 75", action := "turn_off(1)" }] ∧
    ([{ condition := "device.temperature > 75", action := "turn_off(1)" }] :
        List AutomatedTrigger) ≠ [] := by
  refine ⟨rfl, rfl, by decide, rfl, rfl, by decide⟩

/-- Claim C10, amended: both accessors return an alias of the stored list,
so an append performed through the returned reference is visible in the
registry's stored scheduled-task / trigger sequence. -/
theorem C10_amended_accessor_alias (h : Heap ScheduledTask)
    (g : Heap AutomatedTrigger) (hub : HubRefs) (a : ScheduledTask)
    (b : AutomatedTrigger) :
    storedScheduledTasks (heapAppendAt h (HubRefs.get_scheduled_tasks hub) a) hub =
      storedScheduledTasks h hub ++ [a] ∧
    storedAutomatedTriggers (heapAppendAt g (HubRefs.get_automated_triggers hub) b) hub =
      storedAutomatedTriggers g hub ++ [b] := by
  constructor
  · simp [storedScheduledTasks, heapAppendAt, heapRead, HubRefs.get_scheduled_tasks]
  · simp [storedAutomatedTriggers, heapAppendAt, heapRead, HubRefs.get_automated_triggers]

/-- Claim C3: a successful `add_device` rebinds the id to the `DeviceProxy`
returned by `create_device` (overwriting the `Device` object `create_device`
stored), and a subsequent `remove_device` on that id deletes the dict entry
but then raises an uncaught `AttributeError` (the proxy has no `device_type`
attribute) instead of completing with the `"Removed ..."` report. -/
theorem C3_add_device_stores_proxy (hub : SmartHomeHub) (id : Nat) (dt : String)
    (st : Option String) (tp : Option Int)
    (hfresh : dictContains hub.devices id = false)
    (hdt : dt = "light" ∨ dt = "thermostat" ∨ dt = "door") :
    ∃ (p : DeviceProxy) (notifs : List (Nat × String)),
      (hub.create_device id dt st tp).2 = .created p notifs ∧
      dictGet (hub.add_device id dt st tp).1.devices id = some (.proxy p) ∧
      ((hub.add_device id dt st tp).1.remove_device id).2 = .attrError ∧
      ((hub.add_device id dt st tp).1.remove_device id).1.devices =
        dictDel (hub.add_device id dt st tp).1.devices id := by
  obtain ⟨hub', p, notifs, hc⟩ := create_device_creates hub id dt st tp hfresh hdt
  have hadd : hub.add_device id dt st tp =
      ({ hub' with devices := dictSet hub'.devices id (.proxy p) },
       .added ("Added new " ++ dt ++ " with ID " ++ toString id ++ ".") notifs) := by
    simp [SmartHomeHub.add_device, hfresh, hc]
  refine ⟨p, notifs, ?_, ?_, ?_, ?_⟩
  · rw [hc]
  · rw [hadd]
    exact dictGet_dictSet_self _ _ _
  · rw [hadd]
    simp [SmartHomeHub.remove_device, dictGet_dictSet_self]
  · rw [hadd]
    simp [SmartHomeHub.remove_device, dictGet_dictSet_self]

/-- Witness for C3: registering device 1 as a light on an empty hub. -/
theorem C3_add_device_stores_proxy_witness :
    dictContains SmartHomeHub.init.devices 1 = false ∧
    ("light" = "light" ∨ ("light" : String) = "thermostat" ∨ ("light" : String) = "door") ∧
    ∃ (p : DeviceProxy) (notifs : List (Nat × String)),
      (SmartHomeHub.init.create_device 1 "light" none none).2 = .created p notifs ∧
      dictGet (SmartHomeHub.init.add_device 1 "light" none none).1.devices 1 =
        some (.proxy p) ∧
      ((SmartHomeHub.init.add_device 1 "light" none none).1.remove_device 1).2 = .attrError ∧
      ((SmartHomeHub.init.add_device 1 "light" none none).1.remove_device 1).1.devices =
        dictDel (SmartHomeHub.init.add_device 1 "light" none none).1.devices 1 :=
  ⟨rfl, Or.inl rfl,
   C3_add_device_stores_proxy SmartHomeHub.init 1 "light" none none rfl (Or.inl rfl)⟩

/-- Claim C4, counterexample: subscription does not deduplicate
(`add_observer` is a plain append), so for a light whose subscriber
sequence is `[2, 2]`, `turn_on()` then `turn_off()` delivers four
notifications to observer 2 — two per event — not exactly two.  This
falsifies the claim for subscriber sequences with a repeated entry. -/
theorem C4_counterexample_duplicate_subscription :
    (((Light.turn_on { device_id := 7, status := "off", observers := [2, 2] }).2 ++
        ((Light.turn_on
          { device_id := 7, status := "off", observers := [2, 2] }).1.turn_off).2).filter
        (fun q => q.1 == 2)).map Prod.snd =
      ["Light is turned on (on)", "Light is turned on (on)",
       "Light is turned off (off)", "Light is turned off (off)"] ∧
    (["Light is turned on (on)", "Light is turned on (on)",
      "Light is turned off (off)", "Light is turned off (off)"] : List String).length ≠ 2 := by
  exact ⟨rfl, by decide⟩

/-- Claim C4, amended: `turn_on()` then `turn_off()` delivers one batch of
notifications per mutator, each batch visiting the subscriber sequence in
subscription order with the correct transient state (first on, then off);
hence a subscriber occurring once in a duplicate-free subscriber sequence
receives exactly two notifications, the first reflecting the on state and
the second the off state (a subscriber subscribed k times receives k per
event).  Delivery is part of the mutator itself (`notify_observers` runs
in-line before the mutator returns), which the embedding realises by the
mutator returning the delivered batch. -/
theorem C4_light_two_notifications (l : Light) (o : Nat)
    (hnodup : l.observers.Nodup) (ho : o ∈ l.observers) :
    (l.turn_on).2 = l.observers.map (fun x => (x, "Light is turned on (on)")) ∧
    ((l.turn_on).1.turn_off).2 =
      l.observers.map (fun x => (x, "Light is turned off (off)")) ∧
    (((l.turn_on).2 ++ ((l.turn_on).1.turn_off).2).filter
        (fun q => q.1 == o)).map Prod.snd =
      ["Light is turned on (on)", "Light is turned off (off)"] := by
  refine ⟨rfl, rfl, ?_⟩
  have e1 : (l.turn_on).2 = l.observers.map (fun x => (x, "Light is turned on (on)")) := rfl
  have e2 : ((l.turn_on).1.turn_off).2 =
      l.observers.map (fun x => (x, "Light is turned off (off)")) := rfl
  rw [e1, e2, List.filter_append, filter_fst_map, filter_fst_map,
    nodup_filter_beq l.observers o hnodup ho]
  rfl

/-- Witness for C4: a light with subscribers 1 and 2, observing subscriber 2. -/
theorem C4_light_two_notifications_witness :
    ([1, 2] : List Nat).Nodup ∧ 2 ∈ ([1, 2] : List Nat) ∧
    ((Light.turn_on { device_id := 7, status := "off", observers := [1, 2] }).2 =
      ([1, 2] : List Nat).map (fun x => (x, "Light is turned on (on)")) ∧
    ((Light.turn_on { device_id := 7, status := "off", observers := [1, 2] }).1.turn_off).2 =
      ([1, 2] : List Nat).map (fun x => (x, "Light is turned off (off)")) ∧
    (((Light.turn_on { device_id := 7, status := "off", observers := [1, 2] }).2 ++
        ((Light.turn_on
          { device_id := 7, status := "off", observers := [1, 2] }).1.turn_off).2).filter
        (fun q => q.1 == 2)).map Prod.snd =
      ["Light is turned on (on)", "Light is turned off (off)"]) :=
  ⟨by decide, by decide,
   C4_light_two_notifications { device_id := 7, status := "off", observers := [1, 2] } 2
     (by decide) (by decide)⟩

/-- Claim C7: `remove_device` on an absent id prints the not-found report
and leaves the hub (hence the device count) unchanged; on a present id the
entry disappears, the device count drops by exactly one, and the subsequent
`status_report()` is the space-joined report of exactly the other devices. -/
theorem C7_remove_device_behaviour :
    (∀ (hub : SmartHomeHub) (id : Nat), dictContains hub.devices id = false →
      hub.remove_device id =
        (hub, .notFound ("Device with ID " ++ toString id ++ " not found."))) ∧
    (∀ (hub : SmartHomeHub) (id : Nat) (e : StoredEntry)
        (pre post : List (Nat × StoredEntry)),
      hub.devices = pre ++ (id, e) :: post →
      (∀ q ∈ pre, q.1 ≠ id) → (∀ q ∈ post, q.1 ≠ id) →
      (hub.remove_device id).1.devices = pre ++ post ∧
      (hub.remove_device id).1.devices.length + 1 = hub.devices.length ∧
      (hub.remove_device id).1.status_report =
        strJoin " " ((pre ++ post).map (fun q => q.2.status_report))) := by
  constructor
  · intro hub id h
    simp [SmartHomeHub.remove_device, dictGet_of_contains_false _ _ h]
  · intro hub id e pre post hdev hpre hpost
    have hget : dictGet hub.devices id = some e := by
      rw [hdev]; exact dictGet_append_fresh pre post id e hpre
    have hdel : dictDel hub.devices id = pre ++ post := by
      rw [hdev]; exact dictDel_append_middle pre post id e hpre hpost
    have hdevices : (hub.remove_device id).1.devices = pre ++ post := by
      cases e <;> simp [SmartHomeHub.remove_device, hget, hdel]
    refine ⟨hdevices, ?_, ?_⟩
    · rw [hdevices, hdev]
      simp [List.length_append]
      omega
    · rw [SmartHomeHub.status_report, hdevices]

/-- Witness for C7: the absent case on the empty hub, and the present case
on a hub holding exactly device 1. -/
theorem C7_remove_device_behaviour_witness :
    dictContains SmartHomeHub.init.devices 1 = false ∧
    SmartHomeHub.init.remove_device 1 =
      (SmartHomeHub.init, .notFound ("Device with ID " ++ toString 1 ++ " not found.")) ∧
    (SmartHomeHub.init.create_device 1 "light" none none).1.devices =
      [] ++ (1, StoredEntry.dev (.light (Light.init 1))) :: [] ∧
    ((SmartHomeHub.init.create_device 1 "light" none none).1.remove_device 1).1.devices =
      [] ++ ([] : List (Nat × StoredEntry)) ∧
    ((SmartHomeHub.init.create_device 1 "light" none none).1.remove_device 1).1.devices.length
        + 1 =
      (SmartHomeHub.init.create_device 1 "light" none none).1.devices.length ∧
    ((SmartHomeHub.init.create_device 1 "light" none none).1.remove_device 1).1.status_report =
      strJoin " "
        ((([] ++ []) : List (Nat × StoredEntry)).map (fun q => q.2.status_report)) :=
  ⟨rfl, C7_remove_device_behaviour.1 SmartHomeHub.init 1 rfl, rfl,
   (C7_remove_device_behaviour.2 _ 1 _ [] [] rfl (by simp) (by simp)).1,
   (C7_remove_device_behaviour.2 _ 1 _ [] [] rfl (by simp) (by simp)).2.1,
   (C7_remove_device_behaviour.2 _ 1 _ [] [] rfl (by simp) (by simp)).2.2⟩

/-- Claim C9: on a tick, a stored task that is due but carries an
unresolvable/malformed action is a reported, recoverable error: the
dispatcher's `except` catch turns it into the printed error line, the failed
dispatch contributes no hub-state change, and the remaining due tasks (and
hence subsequent ticks) are still processed — the loop never terminates on a
dispatch failure. -/
theorem C9_malformed_action_skipped (hub : SmartHomeHub) (time : String)
    (pre post : List ScheduledTask) (task : ScheduledTask)
    (htasks : hub.scheduled_tasks = pre ++ task :: post)
    (hdue : task.time = time) (hbad : parseCommand task.action = none) :
    hub.run_tick time =
      ((runTasks (runTasks hub time pre).1 time post).1,
       (runTasks hub time pre).2 ++
         ("Error executing command: " ++ task.action) ::
           (runTasks (runTasks hub time pre).1 time post).2) := by
  rw [SmartHomeHub.run_tick, htasks]
  exact runTasks_split_malformed time task hdue hbad pre hub post

/-- Witness for C9: one scheduled, due, unresolvable action `"bogus"`. -/
theorem C9_malformed_action_skipped_witness :
    (SmartHomeHub.init.set_schedule 1 "06:00" "bogus").1.scheduled_tasks =
      [] ++ ({ device := 1, time := "06:00", action := "bogus" } : ScheduledTask) :: [] ∧
    ({ device := 1, time := "06:00", action := "bogus" } : ScheduledTask).time = "06:00" ∧
    parseCommand "bogus" = none ∧
    (SmartHomeHub.init.set_schedule 1 "06:00" "bogus").1.run_tick "06:00" =
      ((runTasks
          (runTasks (SmartHomeHub.init.set_schedule 1 "06:00" "bogus").1 "06:00" []).1
          "06:00" []).1,
       (runTasks (SmartHomeHub.init.set_schedule 1 "06:00" "bogus").1 "06:00" []).2 ++
         ("Error executing command: " ++ "bogus") ::
           (runTasks
              (runTasks (SmartHomeHub.init.set_schedule 1 "06:00" "bogus").1 "06:00" []).1
              "06:00" []).2) :=
  ⟨rfl, rfl, rfl,
   C9_malformed_action_skipped (SmartHomeHub.init.set_schedule 1 "06:00" "bogus").1 "06:00"
     [] [] { device := 1, time := "06:00", action := "bogus" } rfl rfl rfl⟩

end SmartHome
